import Mathlib

/-!
Shallow embedding of the python-jgrapht property-graph layer.

The repository wraps a native graph engine: application-level vertex/edge
identifiers are translated to dense internal integer ids before any native
call, and results are translated back.  This file embeds the host-side code
of `jgrapht/_internals/_pg_paths.py`, `jgrapht/generators.py` and
`jgrapht/io/edgelist.py`, together with spec-modelled stand-ins for the few
helpers those modules import from files not in the corpus, and proves the
claimed properties about them.

Conventions of the embedding:
  * internal ids are `Nat`; application identifiers are a type parameter;
  * a Python `dict` lookup that may raise `KeyError` is a `Nat → Option α`
    (or `α → Option Nat`) function, and an operation that may raise is
    `Option`/`Except`-valued;
  * the native backend is passed in as explicit function arguments, and
    observable native calls are recorded in explicit traces or counts;
  * Python floats carrying graph weights are modelled as `Rat`.
-/

namespace JGraphT

/-- The property-graph façade as seen by `_pg_paths.py`: the two directions
of the vertex id registry (`_vertex_id_to_hash` used in `_cache`,
`_vertex_hash_to_id` used by `_vertex_pg_to_g`) and the reverse edge map
used when decoding edge iterators. -/
structure PGGraph (V E : Type) where
  vertex_id_to_hash : Nat → Option V
  vertex_hash_to_id : V → Option Nat
  edge_id_to_hash : Nat → Option E

/-- Modelled from the spec: `_vertex_pg_to_g` (file `_internals/_pg.py`,
not in the corpus) encodes an application vertex identifier into the
internal integer id via the ID Registry, failing for an unknown vertex
("fails with UnknownVertex if the façade requires pre-registered
vertices"). -/
def vertex_pg_to_g {V E : Type} (g : PGGraph V E) (v : V) : Option Nat :=
  g.vertex_hash_to_id v

/-- The composite record returned by the native call
`backend.jgrapht_handles_get_graphpath`: weight, internal start/end vertex
ids, and the edge iterator contents (internal edge ids). -/
structure NativePathData where
  weight : Rat
  start_vertex : Nat
  end_vertex : Nat
  edges : List Nat
deriving DecidableEq

/-- Modelled from the spec: `_PropertyGraphEdgeIterator` (file
`_internals/_pg_wrappers.py`, not in the corpus) is a Native Iterator
Adapter that decodes each raw internal edge id through the ID Registry of
the graph it was produced against before yielding it.  `list(...)` over it
therefore decodes the whole sequence, failing if some id has no reverse
entry. -/
def decodeEdges {V E : Type} (g : PGGraph V E) (ids : List Nat) :
    Option (List E) :=
  ids.mapM g.edge_id_to_hash

/-- The mutable state of a `_PropertyGraphGraphPath`: the native handle and
the four cache slots, all `None` until `_cache` runs. -/
structure GraphPathState (V E : Type) where
  handle : Nat
  weight : Option Rat
  start_vertex : Option V
  end_vertex : Option V
  edges : Option (List E)
deriving DecidableEq

/-- `_PropertyGraphGraphPath.__init__`: store the handle, all cache slots
empty. -/
def GraphPath.init {V E : Type} (handle : Nat) : GraphPathState V E :=
  { handle := handle, weight := none, start_vertex := none,
    end_vertex := none, edges := none }

/-- `_PropertyGraphGraphPath._cache`: if `self._edges is not None` return
immediately (no native call); otherwise issue exactly one
`jgrapht_handles_get_graphpath` native call, decode the endpoints through
`_vertex_id_to_hash` and the edges through the edge iterator, and fill the
cache.  The result pairs the new state with the number of native fetch
calls issued (0 or 1); `none` models a `KeyError` from a missing reverse
mapping. -/
def GraphPath.cache {V E : Type}
    (fetch : Nat → NativePathData) (g : PGGraph V E)
    (s : GraphPathState V E) : Option (GraphPathState V E × Nat) :=
  if s.edges.isSome then
    some (s, 0)
  else
    let d := fetch s.handle
    match g.vertex_id_to_hash d.start_vertex,
          g.vertex_id_to_hash d.end_vertex,
          decodeEdges g d.edges with
    | some sv, some ev, some es =>
        some ({ s with weight := some d.weight, start_vertex := some sv,
                       end_vertex := some ev, edges := some es }, 1)
    | _, _, _ => none

/-- The four public fields of a `_PropertyGraphGraphPath`. -/
inductive PathField : Type
  | weightF
  | startF
  | endF
  | edgesF
deriving DecidableEq

/-- The value returned by reading one field. -/
inductive PathFieldValue (V E : Type) : Type
  | w (x : Option Rat)
  | v (x : Option V)
  | es (x : Option (List E))
deriving DecidableEq

/-- Reading one property of a `_PropertyGraphGraphPath`: each accessor
first calls `self._cache()` and then returns the corresponding slot.
Returns the value read, the state after the read, and the number of native
fetch calls issued by this read. -/
def GraphPath.readField {V E : Type}
    (fetch : Nat → NativePathData) (g : PGGraph V E)
    (f : PathField) (s : GraphPathState V E) :
    Option (PathFieldValue V E × GraphPathState V E × Nat) :=
  match GraphPath.cache fetch g s with
  | none => none
  | some (s1, n) =>
      match f with
      | .weightF => some (.w s1.weight, s1, n)
      | .startF => some (.v s1.start_vertex, s1, n)
      | .endF => some (.v s1.end_vertex, s1, n)
      | .edgesF => some (.es s1.edges, s1, n)

/-- A sequence of field reads, in the given order, threading the wrapper
state and summing the native fetch calls. -/
def GraphPath.readSeq {V E : Type}
    (fetch : Nat → NativePathData) (g : PGGraph V E)
    (fs : List PathField) (s : GraphPathState V E) :
    Option (List (PathFieldValue V E) × GraphPathState V E × Nat) :=
  match fs with
  | [] => some ([], s, 0)
  | f :: rest =>
      match GraphPath.readField fetch g f s with
      | none => none
      | some (v, s1, n) =>
          match GraphPath.readSeq fetch g rest s1 with
          | none => none
          | some (vs, s2, m) => some (v :: vs, s2, n + m)

/-- `_PropertyGraphGraphPath.__iter__`: call `self._cache()`, then iterate
over `self._edges`.  Returns the yielded edge list, the state after, and
the native fetch calls issued. -/
def GraphPath.iterEdges {V E : Type}
    (fetch : Nat → NativePathData) (g : PGGraph V E)
    (s : GraphPathState V E) :
    Option (List E × GraphPathState V E × Nat) :=
  match GraphPath.cache fetch g s with
  | none => none
  | some (s1, n) =>
      match s1.edges with
      | none => none
      | some es => some (es, s1, n)

/-- The fully decoded state of a `_PropertyGraphGraphPath` after a
successful `_cache` run: every slot filled. -/
def GraphPath.cachedState {V E : Type} (h : Nat) (w : Rat) (sv ev : V)
    (es : List E) : GraphPathState V E :=
  { handle := h, weight := some w, start_vertex := some sv,
    end_vertex := some ev, edges := some es }

/-- The value each field accessor returns once the cache holds weight `w`,
endpoints `sv`/`ev` and edge list `es`: a function of the field alone, so
repeated reads of the same field give identical values. -/
def fieldValueOf {V E : Type} (w : Rat) (sv ev : V) (es : List E) :
    PathField → PathFieldValue V E
  | .weightF => .w (some w)
  | .startF => .v (some sv)
  | .endF => .v (some ev)
  | .edgesF => .es (some es)

/-- A small concrete façade used to instantiate the theorems: one vertex
with application id 7 at internal id 0, and edges with application ids
50 and 51 at internal ids 0 and 1. -/
def demoGraph : PGGraph Nat Nat :=
  { vertex_id_to_hash := fun i => if i = 0 then some 7 else none,
    vertex_hash_to_id := fun v => if v = 7 then some 0 else none,
    edge_id_to_hash := fun i => if i ≤ 1 then some (50 + i) else none }

/-- A concrete native `jgrapht_handles_get_graphpath` answer: weight 3,
endpoints at internal id 0, edge iterator yielding internal ids 0 and
1. -/
def demoFetch : Nat → NativePathData :=
  fun _ => { weight := 3, start_vertex := 0, end_vertex := 0,
             edges := [0, 1] }

/-- The state of a `_PropertyGraphSingleSourcePaths` wrapper: the native
handle, and whatever value the constructor was handed as `source_vertex`
(the constructor stores it verbatim; the `source_vertex` property returns
it unchanged).  The type of the stored value is a parameter because Python
is untyped: callers may pass an application identifier or, as
`get_paths_from` actually does, an internal integer id. -/
structure SingleSourcePathsState (S : Type) where
  handle : Nat
  source_vertex : S
deriving DecidableEq

/-- `_PropertyGraphSingleSourcePaths.get_path`: encode the target vertex
via `_vertex_pg_to_g` (a `KeyError`-style failure for an unknown vertex,
modelled as `.error`), issue the native per-target lookup
`jgrapht_sp_singlesource_get_path_to_vertex` (which returns `None` for an
unreachable target, modelled by the backend function returning `none`),
and wrap a non-null handle in a fresh `_PropertyGraphGraphPath`. -/
def SingleSourcePaths.get_path {V E S : Type}
    (g : PGGraph V E)
    (backend_get_path_to_vertex : Nat → Nat → Option Nat)
    (s : SingleSourcePathsState S) (target_vertex : V) :
    Except String (Option (GraphPathState V E)) :=
  match vertex_pg_to_g g target_vertex with
  | none => .error "KeyError"
  | some t =>
      match backend_get_path_to_vertex s.handle t with
      | none => .ok none
      | some gp => .ok (some (GraphPath.init gp))

/-- `_PropertyGraphAllPairsPaths.get_path`: encode both endpoints via
`_vertex_pg_to_g`, issue the native
`jgrapht_sp_allpairs_get_path_between_vertices` lookup, and wrap a
non-null handle in a fresh `_PropertyGraphGraphPath`; a null handle yields
`None`. -/
def AllPairsPaths.get_path {V E : Type}
    (g : PGGraph V E)
    (backend_get_path_between : Nat → Nat → Nat → Option Nat)
    (handle : Nat) (source_vertex target_vertex : V) :
    Except String (Option (GraphPathState V E)) :=
  match vertex_pg_to_g g source_vertex with
  | none => .error "KeyError"
  | some sv =>
      match vertex_pg_to_g g target_vertex with
      | none => .error "KeyError"
      | some tv =>
          match backend_get_path_between handle sv tv with
          | none => .ok none
          | some gp => .ok (some (GraphPath.init gp))

/-- `_PropertyGraphAllPairsPaths.get_paths_from`: the local variable
`source_vertex` is reassigned to the internal id produced by
`_vertex_pg_to_g`, the native
`jgrapht_sp_allpairs_get_singlesource_from_vertex` call is made with it,
and the same reassigned variable is then passed as the `source_vertex`
argument of the `_PropertyGraphSingleSourcePaths` constructor — so the
stored source vertex is the internal `Nat` id, not the application
identifier. -/
def AllPairsPaths.get_paths_from {V E : Type}
    (g : PGGraph V E)
    (backend_get_singlesource : Nat → Nat → Nat)
    (handle : Nat) (source_vertex : V) :
    Except String (SingleSourcePathsState Nat) :=
  match vertex_pg_to_g g source_vertex with
  | none => .error "KeyError"
  | some sv =>
      .ok { handle := backend_get_singlesource handle sv,
            source_vertex := sv }

end JGraphT

namespace Generators

/-- One call into the native engine made by `jgrapht/generators.py`.  Each
constructor mirrors one `backend.jgrapht_generate_*` function with the
exact arguments the Python wrapper passes. -/
inductive GenCall : Type
  | barabasi_albert (handle m0 m n seed : Int)
  | barabasi_albert_forest (handle t n seed : Int)
  | complete (handle n : Int)
  | bipartite_complete (handle a b : Int)
  | empty (handle n : Int)
  | gnm_random (handle n m : Int) (loops multiple_edges : Bool) (seed : Int)
  | gnp_random (handle n : Int) (p : Rat) (loops : Bool) (seed : Int)
  | ring (handle n : Int)
  | scalefree (handle n seed : Int)
  | watts_strogatz (handle n k : Int) (p : Rat)
      (add_instead_of_rewire : Bool) (seed : Int)
  | kleinberg_smallworld (handle n p q : Int) (r : Rat) (seed : Int)
deriving DecidableEq

/-- The `if seed is None: seed = int(time.time())` pattern shared by every
seeded generator; `now` is the current system time truncated to an
integer. -/
def resolveSeed (seed : Option Int) (now : Int) : Int :=
  match seed with
  | none => now
  | some s => s

/-- `generators.barabasi_albert_graph`: resolve the seed and make the one
native call.  The returned list is the trace of native calls the function
issues (no host-side validation precedes it). -/
def barabasi_albert_graph (handle m0 m n : Int) (seed : Option Int)
    (now : Int) : List GenCall :=
  [.barabasi_albert handle m0 m n (resolveSeed seed now)]

/-- `generators.barabasi_albert_forest`. -/
def barabasi_albert_forest (handle t n : Int) (seed : Option Int)
    (now : Int) : List GenCall :=
  [.barabasi_albert_forest handle t n (resolveSeed seed now)]

/-- `generators.complete_graph`: its entire body is the single native call
`backend.jgrapht_generate_complete(graph.handle, n)`; there is no
validation of `n`. -/
def complete_graph (handle n : Int) : List GenCall :=
  [.complete handle n]

/-- `generators.gnm_random_graph`. -/
def gnm_random_graph (handle n m : Int) (loops multiple_edges : Bool)
    (seed : Option Int) (now : Int) : List GenCall :=
  [.gnm_random handle n m loops multiple_edges (resolveSeed seed now)]

/-- `generators.gnp_random_graph`: resolve the seed and make the one
native call `backend.jgrapht_generate_gnp_random`; there is no validation
of `n` or `p`. -/
def gnp_random_graph (handle n : Int) (p : Rat) (loops : Bool)
    (seed : Option Int) (now : Int) : List GenCall :=
  [.gnp_random handle n p loops (resolveSeed seed now)]

/-- `generators.scalefree_graph`. -/
def scalefree_graph (handle n : Int) (seed : Option Int) (now : Int) :
    List GenCall :=
  [.scalefree handle n (resolveSeed seed now)]

/-- `generators.watts_strogatz_graph`. -/
def watts_strogatz_graph (handle n k : Int) (p : Rat)
    (add_instead_of_rewire : Bool) (seed : Option Int) (now : Int) :
    List GenCall :=
  [.watts_strogatz handle n k p add_instead_of_rewire
      (resolveSeed seed now)]

/-- `generators.kleinberg_smallworld_graph`. -/
def kleinberg_smallworld_graph (handle n p q : Int) (r : Rat)
    (seed : Option Int) (now : Int) : List GenCall :=
  [.kleinberg_smallworld handle n p q r (resolveSeed seed now)]

/-- The seed argument carried by a native generator call, when the call is
a seeded one. -/
def GenCall.seedOf : GenCall → Option Int
  | .barabasi_albert _ _ _ _ s => some s
  | .barabasi_albert_forest _ _ _ s => some s
  | .complete _ _ => none
  | .bipartite_complete _ _ _ => none
  | .empty _ _ => none
  | .gnm_random _ _ _ _ _ s => some s
  | .gnp_random _ _ _ _ s => some s
  | .ring _ _ => none
  | .scalefree _ _ s => some s
  | .watts_strogatz _ _ _ _ _ s => some s
  | .kleinberg_smallworld _ _ _ _ _ s => some s

end Generators

namespace Edgelist

/-- `bytearray(filename_or_string, encoding="utf-8")`: the UTF-8 byte
buffer built from the host string before it is handed to the native
function. -/
def utf8Encode (s : String) : List UInt8 :=
  s.toUTF8.toList

/-- One observable step of `_import_edgelist` after the backend function
lookup: building the UTF-8 byte buffer, and invoking the native function
with that buffer as its first argument.  The payload of `nativeCall` is a
byte list, never the host string object. -/
inductive ImportEvent : Type
  | encoded (bytes : List UInt8)
  | nativeCall (fn : String) (payload : List UInt8)
deriving DecidableEq

/-- The backend function name `_import_edgelist` assembles:
`"jgrapht_import_edgelist_" + ("attrs_" if with_attrs else "noattrs_")
+ name`. -/
def methodName (name : String) (with_attrs : Bool) : String :=
  "jgrapht_import_edgelist_" ++
    (if with_attrs then "attrs_" else "noattrs_") ++ name

/-- `edgelist._import_edgelist`: assemble the backend function name, look
it up on the backend module (`getattr`; `backendFns` is the set of
functions the backend module exposes), raising `NotImplementedError` when
it is absent; otherwise encode the filename-or-string argument into a
UTF-8 bytearray and invoke the native function on it.  Returns the trace
of observable events paired with the outcome; the error branch happens
before the encoding and before any native call, so its trace is empty. -/
def importEdgelist (backendFns : List String) (name : String)
    (with_attrs : Bool) (filename_or_string : String) :
    List ImportEvent × Except String Unit :=
  let m := methodName name with_attrs
  if backendFns.contains m then
    let bs := utf8Encode filename_or_string
    ([.encoded bs, .nativeCall m bs], .ok ())
  else
    ([], .error ("Algorithm " ++ name ++ " not supported."))

/-- `edgelist.read_edgelist_json`: delegates to `_import_edgelist` with
format name `file_json`; `with_attrs` is true exactly when at least one
attribute callback was supplied. -/
def read_edgelist_json (backendFns : List String) (filename : String)
    (has_vertex_cb has_edge_cb : Bool) :
    List ImportEvent × Except String Unit :=
  importEdgelist backendFns "file_json" (has_vertex_cb || has_edge_cb)
    filename

/-- `edgelist.parse_edgelist_json`: delegates to `_import_edgelist` with
format name `string_json`. -/
def parse_edgelist_json (backendFns : List String) (input_string : String)
    (has_vertex_cb has_edge_cb : Bool) :
    List ImportEvent × Except String Unit :=
  importEdgelist backendFns "string_json" (has_vertex_cb || has_edge_cb)
    input_string

/-- `edgelist.read_edgelist_gexf`: delegates to `_import_edgelist` with
format name `file_gexf` (the `validate_schema` flag is forwarded inside
`args` and does not affect the name or the encoding). -/
def read_edgelist_gexf (backendFns : List String) (filename : String)
    (has_vertex_cb has_edge_cb : Bool) :
    List ImportEvent × Except String Unit :=
  importEdgelist backendFns "file_gexf" (has_vertex_cb || has_edge_cb)
    filename

/-- `edgelist.parse_edgelist_gexf`: delegates to `_import_edgelist` with
format name `string_gexf`. -/
def parse_edgelist_gexf (backendFns : List String) (input_string : String)
    (has_vertex_cb has_edge_cb : Bool) :
    List ImportEvent × Except String Unit :=
  importEdgelist backendFns "string_gexf" (has_vertex_cb || has_edge_cb)
    input_string

end Edgelist

namespace MST

/-- A weighted undirected edge of the test graph: the edge id assigned by
`add_edge` (insertion order), its endpoints, and its weight (`add_edge`
without a weight argument gives the default weight 1.0). -/
structure WEdge where
  eid : Nat
  source : Nat
  target : Nat
  weight : Rat
deriving DecidableEq

/-- The graph built by `tests/test_mst.py::build_graph`: vertices 0..9,
the nine star edges (0,i) for i in 1..9 (edge ids 0..8, insertion order),
then the 9-cycle 1-2-…-9-1 (edge ids 9..17), every edge with the default
weight 1. -/
def mstTestEdges : List WEdge :=
  [ ⟨0, 0, 1, 1⟩, ⟨1, 0, 2, 1⟩, ⟨2, 0, 3, 1⟩, ⟨3, 0, 4, 1⟩,
    ⟨4, 0, 5, 1⟩, ⟨5, 0, 6, 1⟩, ⟨6, 0, 7, 1⟩, ⟨7, 0, 8, 1⟩,
    ⟨8, 0, 9, 1⟩,
    ⟨9, 1, 2, 1⟩, ⟨10, 2, 3, 1⟩, ⟨11, 3, 4, 1⟩, ⟨12, 4, 5, 1⟩,
    ⟨13, 5, 6, 1⟩, ⟨14, 6, 7, 1⟩, ⟨15, 7, 8, 1⟩, ⟨16, 8, 9, 1⟩,
    ⟨17, 9, 1, 1⟩ ]

/-- The ids of the star edges (0,i) of the test graph. -/
def starEdgeIds : List Nat :=
  (mstTestEdges.filter (fun e => e.source = 0)).map WEdge.eid

/-- Insert an edge into a weight-sorted list, before the first strictly
heavier edge; on equal weights the existing elements stay first, so the
overall sort is stable in insertion order. -/
def insertByWeight (e : WEdge) : List WEdge → List WEdge
  | [] => [e]
  | y :: ys =>
      if e.weight ≤ y.weight then e :: y :: ys
      else y :: insertByWeight e ys

/-- Stable sort of the edge list by nondecreasing weight. -/
def sortByWeight : List WEdge → List WEdge
  | [] => []
  | x :: xs => insertByWeight x (sortByWeight xs)

/-- One union-find step on a component labelling (`comp.getD v v` is the
component of vertex `v`): relabel everything in `cu` to `cv`. -/
def unionComp (comp : List Nat) (cu cv : Nat) : List Nat :=
  comp.map (fun c => if c = cu then cv else c)

/-- Modelled from the spec: `jgrapht.algorithms.mst.mst_kruskal` is a thin
call into the native engine and is not in the corpus; Kruskal-style
selection scans the edges in nondecreasing weight (stable in insertion
order) and greedily keeps each edge whose endpoints are in different
components.  Returns the total weight and the selected edge ids, matching
the `(mst_w, mst_edges)` pair of the Python call. -/
def mst_kruskal (numVertices : Nat) (edges : List WEdge) :
    Rat × List Nat :=
  let step := fun (st : List Nat × Rat × List Nat) (e : WEdge) =>
    let (comp, w, chosen) := st
    let cu := comp.getD e.source e.source
    let cv := comp.getD e.target e.target
    if cu = cv then (comp, w, chosen)
    else (unionComp comp cu cv, w + e.weight, chosen ++ [e.eid])
  let (_, w, chosen) :=
    (sortByWeight edges).foldl step (List.range numVertices, 0, [])
  (w, chosen)

/-- The first minimum-weight edge among those crossing the cut between
`tree` and the rest (exactly one endpoint already in `tree`); ties are
broken in favour of the earliest edge in the list (insertion order). -/
def pickMinCrossing (edges : List WEdge) (tree : List Nat) :
    Option WEdge :=
  let crossing := edges.filter
    (fun e => tree.contains e.source != tree.contains e.target)
  crossing.foldl
    (fun best e =>
      match best with
      | none => some e
      | some b => if e.weight < b.weight then some e else some b)
    none

/-- The Prim growth loop: repeatedly add the minimum-weight crossing edge
and its new endpoint, spending one unit of fuel per added vertex. -/
def primLoop (edges : List WEdge) :
    Nat → List Nat → Rat → List Nat → Rat × List Nat
  | 0, _, w, chosen => (w, chosen)
  | fuel + 1, tree, w, chosen =>
      match pickMinCrossing edges tree with
      | none => (w, chosen)
      | some e =>
          let newV := if tree.contains e.source then e.target else e.source
          primLoop edges fuel (tree ++ [newV]) (w + e.weight)
            (chosen ++ [e.eid])

/-- Modelled from the spec: `jgrapht.algorithms.mst.mst_prim` is a thin
call into the native engine and is not in the corpus; Prim-style selection
grows a tree from the first vertex, at each step adding the
minimum-weight edge crossing the cut (ties broken in insertion order).
Returns the total weight and the selected edge ids. -/
def mst_prim (vertices : List Nat) (edges : List WEdge) :
    Rat × List Nat :=
  match vertices with
  | [] => (0, [])
  | v0 :: rest => primLoop edges rest.length [v0] 0 []

end MST

namespace VertexCover

/-- The graph built by `tests/test_vc.py::build_graph`: vertices 0..9 and
the star edges (0,i) for i in 1..9. -/
def vcTestEdges : List (Nat × Nat) :=
  [(0, 1), (0, 2), (0, 3), (0, 4), (0, 5), (0, 6), (0, 7), (0, 8), (0, 9)]

/-- The vertex list of the test graph. -/
def vcTestVertices : List Nat :=
  List.range 10

/-- The vertex weight map of `tests/test_vc.py::build_graph`: 1000 for the
center vertex 0 and 1 for each leaf. -/
def vcTestWeights : Nat → Rat :=
  fun v => if v = 0 then 1000 else 1

/-- The number of currently uncovered edges incident to `v`. -/
def uncoveredDeg (edges : List (Nat × Nat)) (v : Nat) : Nat :=
  (edges.filter (fun e => e.1 = v || e.2 = v)).length

/-- The first vertex minimizing `weight(v) / uncoveredDeg(v)` among the
vertices still covering some uncovered edge; ties are broken in favour of
the earliest vertex in the list. -/
def pickMinRatio (weights : Nat → Rat) (vertices : List Nat)
    (edges : List (Nat × Nat)) : Option Nat :=
  vertices.foldl
    (fun best v =>
      if uncoveredDeg edges v = 0 then best
      else
        match best with
        | none => some v
        | some b =>
            if weights v / (uncoveredDeg edges v : Rat) <
                weights b / (uncoveredDeg edges b : Rat) then some v
            else some b)
    none

/-- The greedy cover loop: repeatedly take the best-ratio vertex and drop
the edges it covers. -/
def greedyLoop (weights : Nat → Rat) (vertices : List Nat) :
    Nat → List (Nat × Nat) → List Nat → List Nat
  | 0, _, chosen => chosen
  | fuel + 1, edges, chosen =>
      match pickMinRatio weights vertices edges with
      | none => chosen
      | some v =>
          greedyLoop weights vertices fuel
            (edges.filter (fun e => !(e.1 = v || e.2 = v)))
            (chosen ++ [v])

/-- Modelled from the spec: `jgrapht.algorithms.vertexcover
.vertexcover_greedy` with a vertex-weight map is a thin call into the
native engine and is not in the corpus; the weighted greedy cover
repeatedly selects the vertex of minimum weight-to-uncovered-degree ratio
until every edge is covered.  Returns the cover weight (sum of the
supplied weights over the cover) and the cover vertices, matching the
`(vc_weight, vc_vertices)` pair of the Python call. -/
def vertexcover_greedy (vertices : List Nat) (edges : List (Nat × Nat))
    (weights : Nat → Rat) : Rat × List Nat :=
  let chosen := greedyLoop weights vertices vertices.length edges []
  ((chosen.map weights).sum, chosen)

/-- The Clarkson loop: like the greedy loop but on residual weights; after
selecting `v` at ratio `r`, each still-uncovered neighbour of `v` has its
residual weight lowered by `r`. -/
def clarksonLoop (vertices : List Nat) :
    Nat → (Nat → Rat) → List (Nat × Nat) → List Nat → List Nat
  | 0, _, _, chosen => chosen
  | fuel + 1, resW, edges, chosen =>
      match pickMinRatio resW vertices edges with
      | none => chosen
      | some v =>
          let r := resW v / (uncoveredDeg edges v : Rat)
          let incident := edges.filter (fun e => e.1 = v || e.2 = v)
          let nbrs := incident.map (fun e => if e.1 = v then e.2 else e.1)
          clarksonLoop vertices fuel
            (fun u => if nbrs.contains u then resW u - r else resW u)
            (edges.filter (fun e => !(e.1 = v || e.2 = v)))
            (chosen ++ [v])

/-- Modelled from the spec: `jgrapht.algorithms.vertexcover
.vertexcover_clarkson` with a vertex-weight map is a thin call into the
native engine and is not in the corpus; Clarkson's weighted algorithm is
the residual-weight greedy: select the vertex of minimum residual-weight
to uncovered-degree ratio, charge that ratio to its uncovered neighbours,
and repeat.  The reported cover weight sums the original weights over the
cover. -/
def vertexcover_clarkson (vertices : List Nat)
    (edges : List (Nat × Nat)) (weights : Nat → Rat) : Rat × List Nat :=
  let chosen := clarksonLoop vertices vertices.length weights edges []
  ((chosen.map weights).sum, chosen)

end VertexCover


/-! ## Theorems -/

section PathTheorems

open JGraphT

variable {V E : Type}

/-- On a fresh wrapper whose decode succeeds, `_cache` issues exactly one
native fetch and fills every slot. -/
theorem cache_init (fetch : Nat → NativePathData) (g : PGGraph V E)
    (h : Nat) (sv ev : V) (es : List E)
    (hsv : g.vertex_id_to_hash (fetch h).start_vertex = some sv)
    (hev : g.vertex_id_to_hash (fetch h).end_vertex = some ev)
    (hes : decodeEdges g (fetch h).edges = some es) :
    GraphPath.cache fetch g (GraphPath.init h) =
      some (GraphPath.cachedState h (fetch h).weight sv ev es, 1) := by
  simp [GraphPath.cache, GraphPath.init, GraphPath.cachedState, hsv, hev,
    hes]

/-- On a fully cached wrapper, `_cache` is a no-op issuing no native
call. -/
theorem cache_cached (fetch : Nat → NativePathData) (g : PGGraph V E)
    (h : Nat) (w : Rat) (sv ev : V) (es : List E) :
    GraphPath.cache fetch g (GraphPath.cachedState h w sv ev es) =
      some (GraphPath.cachedState h w sv ev es, 0) := rfl

/-- Reading any field of a fully cached wrapper returns the cached value,
leaves the state unchanged and issues no native call. -/
theorem readField_cached (fetch : Nat → NativePathData) (g : PGGraph V E)
    (h : Nat) (w : Rat) (sv ev : V) (es : List E) (f : PathField) :
    GraphPath.readField fetch g f (GraphPath.cachedState h w sv ev es) =
      some (fieldValueOf w sv ev es f,
            GraphPath.cachedState h w sv ev es, 0) := by
  cases f <;> rfl

/-- Reading any sequence of fields of a fully cached wrapper returns the
cached values and issues no native call. -/
theorem readSeq_cached (fetch : Nat → NativePathData) (g : PGGraph V E)
    (h : Nat) (w : Rat) (sv ev : V) (es : List E) (fs : List PathField) :
    GraphPath.readSeq fetch g fs (GraphPath.cachedState h w sv ev es) =
      some (fs.map (fieldValueOf w sv ev es),
            GraphPath.cachedState h w sv ev es, 0) := by
  induction fs with
  | nil => rfl
  | cons f rest ih =>
      simp [GraphPath.readSeq, readField_cached, ih]

/-- C2: for every `_PropertyGraphGraphPath` whose decode succeeds, any
nonempty sequence of reads of the fields `weight`, `start_vertex`,
`end_vertex`, `edges`, in any order, returns for each field the one value
determined by the fetched data (so repeated reads return identical
values), and exactly one `jgrapht_handles_get_graphpath` native fetch is
issued in total, regardless of how many times and which fields are
read. -/
theorem graphpath_decode_once (fetch : Nat → NativePathData)
    (g : PGGraph V E) (h : Nat) (sv ev : V) (es : List E)
    (hsv : g.vertex_id_to_hash (fetch h).start_vertex = some sv)
    (hev : g.vertex_id_to_hash (fetch h).end_vertex = some ev)
    (hes : decodeEdges g (fetch h).edges = some es)
    (fs : List PathField) (hfs : fs ≠ []) :
    GraphPath.readSeq fetch g fs (GraphPath.init h) =
      some (fs.map (fieldValueOf (fetch h).weight sv ev es),
            GraphPath.cachedState h (fetch h).weight sv ev es, 1) := by
  cases fs with
  | nil => exact absurd rfl hfs
  | cons f rest =>
      have hcache := cache_init fetch g h sv ev es hsv hev hes
      have hread : GraphPath.readField fetch g f (GraphPath.init h) =
          some (fieldValueOf (fetch h).weight sv ev es f,
                GraphPath.cachedState h (fetch h).weight sv ev es, 1) := by
        cases f <;>
          simp [GraphPath.readField, hcache, fieldValueOf,
            GraphPath.cachedState]
      simp [GraphPath.readSeq, hread, readSeq_cached]

/-- C2 witness: on the concrete demo wrapper, reading weight, then edges,
then weight again returns the decoded values and issues exactly one
native fetch. -/
theorem graphpath_decode_once_witness :
    ([PathField.weightF, PathField.edgesF, PathField.weightF] ≠
      ([] : List PathField)) ∧
    GraphPath.readSeq demoFetch demoGraph
        [PathField.weightF, PathField.edgesF, PathField.weightF]
        (GraphPath.init 4) =
      some ([PathField.weightF, PathField.edgesF, PathField.weightF].map
              (fieldValueOf (demoFetch 4).weight 7 7 [50, 51]),
            GraphPath.cachedState 4 (demoFetch 4).weight 7 7 [50, 51],
            1) :=
  ⟨by decide,
   graphpath_decode_once demoFetch demoGraph 4 7 7 [50, 51] rfl rfl rfl
     [PathField.weightF, PathField.edgesF, PathField.weightF]
     (by decide)⟩

/-- C9: for every `_PropertyGraphGraphPath` whose decode succeeds,
iterating directly over the path yields exactly the edge list that the
`edges` property returns, in the same order, and reaches exactly the same
cached state through the same single decode-and-cache native fetch. -/
theorem graphpath_iter_matches_edges (fetch : Nat → NativePathData)
    (g : PGGraph V E) (h : Nat) (sv ev : V) (es : List E)
    (hsv : g.vertex_id_to_hash (fetch h).start_vertex = some sv)
    (hev : g.vertex_id_to_hash (fetch h).end_vertex = some ev)
    (hes : decodeEdges g (fetch h).edges = some es) :
    GraphPath.iterEdges fetch g (GraphPath.init h) =
      some (es, GraphPath.cachedState h (fetch h).weight sv ev es, 1) ∧
    GraphPath.readField fetch g PathField.edgesF (GraphPath.init h) =
      some (PathFieldValue.es (some es),
            GraphPath.cachedState h (fetch h).weight sv ev es, 1) := by
  have hcache := cache_init fetch g h sv ev es hsv hev hes
  constructor
  · simp [GraphPath.iterEdges, hcache, GraphPath.cachedState]
  · simp [GraphPath.readField, hcache, GraphPath.cachedState]

/-- C9 witness: on the concrete demo wrapper, direct iteration and the
`edges` property both produce the decoded edge list [50, 51] through one
native fetch. -/
theorem graphpath_iter_matches_edges_witness :
    GraphPath.iterEdges demoFetch demoGraph (GraphPath.init 5) =
      some ([50, 51],
            GraphPath.cachedState 5 (demoFetch 5).weight 7 7 [50, 51],
            1) ∧
    GraphPath.readField demoFetch demoGraph PathField.edgesF
        (GraphPath.init 5) =
      some (PathFieldValue.es (some [50, 51]),
            GraphPath.cachedState 5 (demoFetch 5).weight 7 7 [50, 51],
            1) :=
  graphpath_iter_matches_edges demoFetch demoGraph 5 7 7 [50, 51] rfl rfl
    rfl

end PathTheorems

section PathsApiTheorems

open JGraphT

/-- C1 (failing-input evaluation): on the demo façade, whose application
vertex 7 sits at internal id 0, `AllPairsPaths.get_paths_from 7` returns a
`_PropertyGraphSingleSourcePaths` whose `source_vertex` property is the
raw internal id 0, not the application identifier 7: the code reassigns
the local `source_vertex` to the encoded id before storing it. -/
theorem get_paths_from_returns_internal_id :
    AllPairsPaths.get_paths_from demoGraph (fun h sv => h + sv) 100 7 =
      .ok { handle := 100, source_vertex := 0 } ∧
    (AllPairsPaths.get_paths_from demoGraph (fun h sv => h + sv) 100 7
        ≠ .ok { handle := 100, source_vertex := 7 }) := by
  refine ⟨rfl, fun hcontr => ?_⟩
  rw [show AllPairsPaths.get_paths_from demoGraph (fun h sv => h + sv)
        100 7 = .ok { handle := 100, source_vertex := 0 } from rfl]
    at hcontr
  simp [SingleSourcePathsState.mk.injEq] at hcontr

/-- C4: a `SingleSourcePaths.get_path` or `AllPairsPaths.get_path` call on
a known target returns `.ok none` (a "no path" result, not an error) when
the native lookup reports the target unreachable (null handle), and wraps
the handle in a fresh `_PropertyGraphGraphPath` when a path exists. -/
theorem get_path_unreachable_returns_none {V E S : Type}
    (g : PGGraph V E)
    (be_single : Nat → Nat → Option Nat)
    (be_pairs : Nat → Nat → Nat → Option Nat)
    (s : SingleSourcePathsState S) (handle : Nat)
    (src tgt : V) (si ti : Nat)
    (hsrc : vertex_pg_to_g g src = some si)
    (htgt : vertex_pg_to_g g tgt = some ti) :
    (be_single s.handle ti = none →
      SingleSourcePaths.get_path g be_single s tgt = .ok none) ∧
    (∀ gp, be_single s.handle ti = some gp →
      SingleSourcePaths.get_path g be_single s tgt =
        .ok (some (GraphPath.init gp))) ∧
    (be_pairs handle si ti = none →
      AllPairsPaths.get_path g be_pairs handle src tgt = .ok none) ∧
    (∀ gp, be_pairs handle si ti = some gp →
      AllPairsPaths.get_path g be_pairs handle src tgt =
        .ok (some (GraphPath.init gp))) := by
  refine ⟨fun hnone => ?_, fun gp hgp => ?_, fun hnone => ?_,
    fun gp hgp => ?_⟩
  · simp [SingleSourcePaths.get_path, htgt, hnone]
  · simp [SingleSourcePaths.get_path, htgt, hgp]
  · simp [AllPairsPaths.get_path, hsrc, htgt, hnone]
  · simp [AllPairsPaths.get_path, hsrc, htgt, hgp]

/-- C4 witness: on the demo façade, an unreachable target yields
`.ok none` from both lookups and a reachable one yields a fresh
`_PropertyGraphGraphPath` wrapper. -/
theorem get_path_unreachable_returns_none_witness :
    SingleSourcePaths.get_path demoGraph (fun _ _ => (none : Option Nat))
        ({ handle := 9, source_vertex := 7 } : SingleSourcePathsState Nat)
        7 = .ok none ∧
    AllPairsPaths.get_path demoGraph (fun _ _ _ => some 42) 9 7 7 =
      .ok (some (GraphPath.init 42)) :=
  ⟨(get_path_unreachable_returns_none demoGraph
      (fun _ _ => (none : Option Nat)) (fun _ _ _ => some 42)
      ({ handle := 9, source_vertex := 7 } : SingleSourcePathsState Nat)
      9 7 7 0 0 rfl rfl).1 rfl,
   (get_path_unreachable_returns_none demoGraph
      (fun _ _ => (none : Option Nat)) (fun _ _ _ => some 42)
      ({ handle := 9, source_vertex := 7 } : SingleSourcePathsState Nat)
      9 7 7 0 0 rfl rfl).2.2.2 42 rfl⟩

end PathsApiTheorems

section GeneratorTheorems

open Generators

/-- C3 counterexample: calling `complete_graph` with the out-of-domain
vertex count -1 does not fail before the native boundary; it issues the
native call `jgrapht_generate_complete` with -1 as the vertex count (the
trace of native calls is nonempty), since the wrapper performs no
host-side validation. -/
theorem complete_graph_negative_calls_native :
    complete_graph 0 (-1) = [GenCall.complete 0 (-1)] ∧
    complete_graph 0 (-1) ≠ [] := by
  exact ⟨rfl, by decide⟩

/-- C3 (amended): generator calls perform no host-side domain validation:
for every numeric parameter value, in or out of domain (for example a
negative vertex count), the wrapper issues exactly one native call
carrying the parameters exactly as given, so an out-of-domain error can
only be raised by the native backend, not before the native call. -/
theorem generators_no_host_validation :
    (∀ handle n : Int, complete_graph handle n =
      [GenCall.complete handle n]) ∧
    (∀ (handle n : Int) (p : Rat) (loops : Bool) (seed : Option Int)
        (now : Int),
      gnp_random_graph handle n p loops seed now =
        [GenCall.gnp_random handle n p loops (resolveSeed seed now)]) := by
  exact ⟨fun _ _ => rfl, fun _ _ _ _ _ _ => rfl⟩

/-- C7: every seeded generator resolves its seed by the shared pattern —
a supplied seed is passed to the native call exactly as given, and an
unset seed is replaced by the current system time truncated to an integer
— and issues exactly one native call carrying that resolved seed. -/
theorem seeded_generators_resolve_seed :
    (∀ s now : Int, resolveSeed (some s) now = s) ∧
    (∀ now : Int, resolveSeed none now = now) ∧
    (∀ (handle m0 m n : Int) (seed : Option Int) (now : Int),
      barabasi_albert_graph handle m0 m n seed now =
        [GenCall.barabasi_albert handle m0 m n (resolveSeed seed now)]) ∧
    (∀ (handle t n : Int) (seed : Option Int) (now : Int),
      barabasi_albert_forest handle t n seed now =
        [GenCall.barabasi_albert_forest handle t n
          (resolveSeed seed now)]) ∧
    (∀ (handle n m : Int) (loops me : Bool) (seed : Option Int)
        (now : Int),
      gnm_random_graph handle n m loops me seed now =
        [GenCall.gnm_random handle n m loops me (resolveSeed seed now)]) ∧
    (∀ (handle n : Int) (p : Rat) (loops : Bool) (seed : Option Int)
        (now : Int),
      gnp_random_graph handle n p loops seed now =
        [GenCall.gnp_random handle n p loops (resolveSeed seed now)]) ∧
    (∀ (handle n : Int) (seed : Option Int) (now : Int),
      scalefree_graph handle n seed now =
        [GenCall.scalefree handle n (resolveSeed seed now)]) ∧
    (∀ (handle n k : Int) (p : Rat) (air : Bool) (seed : Option Int)
        (now : Int),
      watts_strogatz_graph handle n k p air seed now =
        [GenCall.watts_strogatz handle n k p air
          (resolveSeed seed now)]) ∧
    (∀ (handle n p q : Int) (r : Rat) (seed : Option Int) (now : Int),
      kleinberg_smallworld_graph handle n p q r seed now =
        [GenCall.kleinberg_smallworld handle n p q r
          (resolveSeed seed now)]) := by
  refine ⟨fun _ _ => rfl, fun _ => rfl, fun _ _ _ _ _ _ => rfl,
    fun _ _ _ _ _ => rfl, fun _ _ _ _ _ _ _ => rfl,
    fun _ _ _ _ _ _ => rfl, fun _ _ _ _ => rfl,
    fun _ _ _ _ _ _ _ => rfl, fun _ _ _ _ _ _ _ => rfl⟩

end GeneratorTheorems

section EdgelistTheorems

open Edgelist

/-- C8: whenever the backend exposes the assembled function name, an
edgelist import/parse call encodes the filename-or-string argument into a
UTF-8 byte buffer and invokes the native function with that byte buffer as
its payload — the encoding event precedes the native call in the trace,
and the native call carries bytes, never the host string itself. -/
theorem import_edgelist_encodes_utf8 (backendFns : List String)
    (name : String) (with_attrs : Bool) (input : String)
    (hmem : backendFns.contains (methodName name with_attrs) = true) :
    importEdgelist backendFns name with_attrs input =
      ([ImportEvent.encoded (utf8Encode input),
        ImportEvent.nativeCall (methodName name with_attrs)
          (utf8Encode input)],
       .ok ()) := by
  simp only [importEdgelist, hmem]
  simp

/-- C8 witness: importing the string "g.json" with format `file_json` on
a backend exposing the matching function encodes it to UTF-8 and makes
the native call with the byte buffer. -/
theorem import_edgelist_encodes_utf8_witness :
    (["jgrapht_import_edgelist_noattrs_file_json"].contains
        (methodName "file_json" false) = true) ∧
    importEdgelist ["jgrapht_import_edgelist_noattrs_file_json"]
        "file_json" false "g.json" =
      ([ImportEvent.encoded (utf8Encode "g.json"),
        ImportEvent.nativeCall (methodName "file_json" false)
          (utf8Encode "g.json")],
       .ok ()) :=
  ⟨by rfl,
   import_edgelist_encodes_utf8
     ["jgrapht_import_edgelist_noattrs_file_json"] "file_json" false
     "g.json" (by rfl)⟩

/-- C10: when the backend exposes no function matching the assembled
name, `_import_edgelist` raises `NotImplementedError` ("Algorithm …
not supported.") with an empty observable trace: no native call is made
and no UTF-8 encoding of the input takes place, the failure occurring
before the byte-buffer conversion. -/
theorem import_edgelist_unknown_format (backendFns : List String)
    (name : String) (with_attrs : Bool) (input : String)
    (hmem : backendFns.contains (methodName name with_attrs) = false) :
    importEdgelist backendFns name with_attrs input =
      ([], .error ("Algorithm " ++ name ++ " not supported.")) := by
  simp only [importEdgelist, hmem]
  simp

/-- C10 witness: the format name `bogus` is absent from a backend exposing
only the JSON file importer, so the call errors with an empty trace. -/
theorem import_edgelist_unknown_format_witness :
    (["jgrapht_import_edgelist_noattrs_file_json"].contains
        (methodName "bogus" false) = false) ∧
    importEdgelist ["jgrapht_import_edgelist_noattrs_file_json"] "bogus"
        false "g.json" =
      ([], .error ("Algorithm " ++ "bogus" ++ " not supported.")) :=
  ⟨by rfl,
   import_edgelist_unknown_format
     ["jgrapht_import_edgelist_noattrs_file_json"] "bogus" false "g.json"
     (by rfl)⟩

end EdgelistTheorems

section AlgorithmScenarioTheorems

attribute [local semireducible] Rat.add Rat.mul Rat.sub Rat.inv

/-- C5: on the 10-vertex test graph (nine star edges (0,i) of weight 1,
edge ids 0..8, plus the 9-cycle of weight 1, edge ids 9..17), both the
Kruskal-style and the Prim-style minimum spanning tree computations return
total weight 9 and select exactly the nine star edges. -/
theorem mst_test_graph_star_edges :
    MST.mst_kruskal 10 MST.mstTestEdges = (9, MST.starEdgeIds) ∧
    MST.mst_prim (List.range 10) MST.mstTestEdges =
      (9, MST.starEdgeIds) ∧
    MST.starEdgeIds = [0, 1, 2, 3, 4, 5, 6, 7, 8] := by
  refine ⟨?_, ?_, ?_⟩ <;> decide

/-- C6: on the star test graph (center 0 of weight 1000 joined to the
leaves 1..9 of weight 1 each), both the weighted greedy and the Clarkson
vertex cover computations return cover weight 9 and the cover
{1, …, 9}. -/
theorem vertexcover_test_graph_leaves :
    VertexCover.vertexcover_greedy VertexCover.vcTestVertices
        VertexCover.vcTestEdges VertexCover.vcTestWeights =
      (9, [1, 2, 3, 4, 5, 6, 7, 8, 9]) ∧
    VertexCover.vertexcover_clarkson VertexCover.vcTestVertices
        VertexCover.vcTestEdges VertexCover.vcTestWeights =
      (9, [1, 2, 3, 4, 5, 6, 7, 8, 9]) := by
  refine ⟨?_, ?_⟩ <;> decide

end AlgorithmScenarioTheorems
